import Mathlib

/-!
Verification development for the lnurl-pay chat server
(repository `hsjoberg/lnurl-pay-chat-server`).

The authoritative code is the current variant of `src/src/index.ts`
(the fastify server with payer-data support, `config.url`-based
endpoints, timestamped messages and the presence broadcast on both
connect and close) together with `src/src/config.ts`.

The shallow embedding below translates, line by line, the parts of
that file that the specification's claims are about:

* query-parameter parsing (`parseSendTextCallbackQueryParams`),
* the `/api/send-text/callback` handler (validation, invoice
  creation, registration of the settlement subscription),
* the `invoice_updated` settlement handler (comment composition,
  message-store insert, in-memory cache append, broadcast),
* the `/api/ws` websocket handler (presence set, NUM_USERS
  broadcasts on connect and on close),
* the `/api/messages` feed (in-memory cache seeded from
  `SELECT ... ORDER BY id ASC LIMIT 1000`),
* the `bech32` encoding/decoding used by `/api/get-bech32`
  (translated from the `bech32` npm package consumed by the code).

External collaborators (the Lightning node, SQLite, the websocket
transport) are represented at their interface boundary, exactly as
the spec treats them: invoice creation is an `Except`-valued input,
settlement events are explicit inputs to a step function, and the
database / broadcasts are explicit components of the server state.
`JSON.parse` (an ECMAScript builtin) is represented at its boundary
as well: a `payerdata` query string is carried as its parse outcome
(either `malformed`, for strings on which `JSON.parse` throws such
as "\x7b", or the parsed JSON value).
-/

namespace LnurlPayChat

set_option maxRecDepth 8000

/-! ### JavaScript JSON values (the result of `JSON.parse`)

Only what the code touches is needed: the settlement handler reads
`payerdata?.name`, tests its JS-truthiness, and string-concatenates
it.  JSON numbers are modelled as integers, which is enough for
every claim (no claim depends on fractional payer data). -/

inductive JsValue where
  | null : JsValue
  | bool (b : Bool) : JsValue
  | num (n : Int) : JsValue
  | str (s : String) : JsValue
  | arr (xs : List JsValue) : JsValue
  | obj (fields : List (String × JsValue)) : JsValue
deriving Repr

/-- JS truthiness of a JSON value (`null`, `false`, `0` and `""` are
falsy; arrays and objects are always truthy). -/
def truthy : JsValue → Bool
  | .null => false
  | .bool b => b
  | .num n => n != 0
  | .str s => s != ""
  | .arr _ => true
  | .obj _ => true

/-- JS member access `v?.name`: field lookup on objects, `undefined`
(`none`) on every other value. -/
def jsMember (v : JsValue) (key : String) : Option JsValue :=
  match v with
  | .obj fields => fields.lookup key
  | _ => none

mutual

/-- JS `ToString` coercion as applied by the `+` string concatenation
in `payerdata.name + ":  " + comment`. -/
def jsToString : JsValue → String
  | .null => "null"
  | .bool b => if b then "true" else "false"
  | .num n => toString n
  | .str s => s
  | .arr xs => jsToStringList xs
  | .obj _ => "[object Object]"

/-- JS `Array.prototype.toString` = `join(",")`, where `null`
elements render as the empty string. -/
def jsToStringList : List JsValue → String
  | [] => ""
  | .null :: rest =>
      (if rest.isEmpty then "" else ",") ++ jsToStringList rest
  | v :: rest =>
      jsToString v ++ (if rest.isEmpty then "" else ",") ++ jsToStringList rest

end

/-! ### Query parameters and their parsing -/

/-- The parse outcome of a raw `payerdata` query string under the
ECMAScript builtin `JSON.parse` (external to the repository):
either the builtin throws (`malformed`) or it yields a JSON value. -/
inductive PdRaw where
  | malformed : PdRaw
  | json (v : JsValue) : PdRaw
deriving Repr

/-- Raw query of `/api/send-text/callback`.  Fastify delivers query
parameters as strings; `none` means the parameter is absent.
(`nonce` and `fromnodes` are declared in the source interface but
never read.) -/
structure RawQuery where
  amount : Option String
  comment : Option String
  payerdata : Option PdRaw
deriving Repr

/-- JS `Number.parseInt(s, 10)`: skip leading whitespace, optional
sign, then the longest run of decimal digits; `NaN` (modelled as
`none`) when no digit is found. -/
def jsParseInt (s : String) : Option Int :=
  let cs := s.data.dropWhile fun c => c == ' ' || c == '\t' || c == '\n' || c == '\r'
  let signAndRest : Int × List Char :=
    match cs with
    | '-' :: rest => (-1, rest)
    | '+' :: rest => (1, rest)
    | _ => (1, cs)
  let ds := signAndRest.2.takeWhile Char.isDigit
  if ds.isEmpty then none
  else some (signAndRest.1 * ds.foldl (fun acc c => acc * 10 + ((c.toNat - '0'.toNat : Nat) : Int)) 0)

/-- `ILNUrlPayParams` of the source: the result of
`parseSendTextCallbackQueryParams`.  `amount` is
`params.amount ? Number.parseInt(params.amount, 10) : undefined`,
so the outer `Option` is JS `undefined` (absent or empty string)
and the inner `Option` is `NaN`. -/
structure ILNUrlPayParams where
  amount : Option (Option Int)
  comment : Option String
  payerdata : Option JsValue
deriving Repr

/-- `parseSendTextCallbackQueryParams` (source lines 402-413): builds
the params object; if `JSON.parse(params.payerdata)` throws, the
catch block rethrows `Error("Could not parse query params")`, which
escapes the route handler (modelled as `.error ()`). -/
def parseSendTextCallbackQueryParams (q : RawQuery) : Except Unit ILNUrlPayParams :=
  match q.payerdata with
  | some .malformed => .error ()
  | some (.json v) =>
      .ok ⟨match q.amount with
           | none => none
           | some s => if s = "" then none else some (jsParseInt s),
           q.comment, some v⟩
  | none =>
      .ok ⟨match q.amount with
           | none => none
           | some s => if s = "" then none else some (jsParseInt s),
           q.comment, none⟩

/-! ### The callback handler -/

/-- A `PendingInvoice` as returned by `lnService.createInvoice`. -/
structure Invoice where
  id : Nat
  request : String
deriving Repr

/-- The two ways the route handler can throw instead of sending a
response: the query-param parse rethrow, or `createInvoice`
rejecting (`UpstreamUnavailable`).  Fastify surfaces a throw to the
HTTP caller as a generic error response (HTTP 500), not as the
protocol-level `{status:"ERROR"}` shape. -/
inductive ThrownKind where
  | parseParams : ThrownKind
  | upstream : ThrownKind
deriving Repr

/-- Outcome of the callback route as seen by the HTTP caller. -/
inductive CallbackResult where
  | badRequest (reason : String) : CallbackResult
  | thrown (k : ThrownKind) : CallbackResult
  | ok (pr : String) : CallbackResult
deriving Repr

/-- The invoice-creation request handed to the payment rail:
the validated amount (millisatoshi, from the query) and the
`tokens: amount / 1000` value (JS number division, exact here). -/
structure CreateReq where
  amountMsat : Int
  tokens : ℚ
deriving Repr

/-- The callback context captured by the `sub.on("invoice_updated")`
closure: the validated comment and the parsed payer data. -/
structure Ctx where
  comment : String
  payerdata : Option JsValue
deriving Repr

/-- Everything the callback route produces: the HTTP outcome, the
invoice-creation request actually handed to the gateway (if any),
and the settlement subscription registered for the new invoice
(invoice id paired with the captured context), if any. -/
structure CbOut where
  result : CallbackResult
  gwCall : Option CreateReq
  pending : Option (Nat × Ctx)
deriving Repr

def amountErrorMsg : String :=
  "You must provide an amount and it must be higher than or equal to 10 sats."

def commentMissingMsg : String := "You must provide a comment."

def commentTooLongMsg : String := "Comment cannot be larger than 144 letters."

/-- The `/api/send-text/callback` handler (source lines 309-393),
parameterised by the behaviour of `lnService.createInvoice`
(`gw = .error ()` models the upstream node rejecting/unreachable).
Checks in source order: amount (`!amount || amount < 10 ||
Number.isNaN(amount)`), then comment presence (`!comment`), then
comment length (`> 144`); then the invoice is created and the
settlement subscription is registered.  JS truthiness: `!amount` is
true for `undefined`, `NaN` and `0`; `0 < 10` makes the zero case
land in the same branch either way. -/
def sendTextCallback (q : RawQuery) (gw : Except Unit Invoice) : CbOut :=
  match parseSendTextCallbackQueryParams q with
  | .error _ => ⟨.thrown .parseParams, none, none⟩
  | .ok p =>
    match p.amount with
    | none => ⟨.badRequest amountErrorMsg, none, none⟩
    | some none => ⟨.badRequest amountErrorMsg, none, none⟩
    | some (some a) =>
      if a < 10 then ⟨.badRequest amountErrorMsg, none, none⟩
      else
        match p.comment with
        | none => ⟨.badRequest commentMissingMsg, none, none⟩
        | some c =>
          if c = "" then ⟨.badRequest commentMissingMsg, none, none⟩
          else if 144 < c.length then ⟨.badRequest commentTooLongMsg, none, none⟩
          else
            match gw with
            | .error _ => ⟨.thrown .upstream, some ⟨a, (a : ℚ) / 1000⟩, none⟩
            | .ok inv =>
                ⟨.ok inv.request, some ⟨a, (a : ℚ) / 1000⟩, some (inv.id, ⟨c, p.payerdata⟩)⟩

/-! ### Server state and the settlement / websocket handlers -/

/-- A row of the `message` table / an element of the in-memory
`messages` cache (`IMessage` in the source). -/
structure IMessage where
  text : String
  timestamp : Nat
deriving Repr

/-- Payload of a websocket broadcast: `{type:"NUM_USERS", data:n}`
or `{type:"MESSAGE", data:JSON.stringify({text, timestamp})}`. -/
inductive WsPayload where
  | numUsers (n : Nat) : WsPayload
  | message (text : String) (timestamp : Nat) : WsPayload
deriving Repr

/-- One call of `sendToAllWebSocketConnections`: the payload together
with the sockets it was delivered to. -/
structure Broadcast where
  recipients : List Nat
  payload : WsPayload
deriving Repr

/-- The mutable state of the server process.  `messages` is the
in-memory cache, `dbMessages` the persisted `message` table (in id
order), `socketUsers` the websocket set (JS `Set` keeps insertion
order; sockets are identified by numbers), `pending` the live
settlement subscriptions keyed by invoice id, and `broadcasts` the
log of everything sent over the websockets. -/
structure ServerState where
  messages : List IMessage
  dbMessages : List IMessage
  socketUsers : List Nat
  pending : List (Nat × Ctx)
  broadcasts : List Broadcast
deriving Repr

/-- `sendToAllWebSocketConnections` (source lines 415-419): delivers
a payload to every currently registered socket. -/
def sendToAllWebSocketConnections (st : ServerState) (payload : WsPayload) : ServerState :=
  { st with broadcasts := st.broadcasts ++ [⟨st.socketUsers, payload⟩] }

/-- `nameDescedComment` (source line 363):
`payerdata?.name ? (payerdata.name + ":  " + comment) : comment`. -/
def nameDescedComment (ctx : Ctx) : String :=
  match ctx.payerdata with
  | none => ctx.comment
  | some pd =>
    match jsMember pd "name" with
    | none => ctx.comment
    | some nv => if truthy nv then jsToString nv ++ ":  " ++ ctx.comment else ctx.comment

/-- The `sub.on("invoice_updated")` handler (source lines 362-392)
for the subscription bound to invoice `invId`, receiving one event
with the given `is_confirmed` flag at time `now`: when confirmed,
insert the composed comment into the `message` table, push it onto
the in-memory cache, and broadcast it; otherwise do nothing.  There
is no tear-down and no applied-marker in the source, so `pending`
is left unchanged.  Events for an invoice with no live subscription
are dropped. -/
def applyInvoiceUpdated (st : ServerState) (invId : Nat) (isConfirmed : Bool) (now : Nat) :
    ServerState :=
  match st.pending.lookup invId with
  | none => st
  | some ctx =>
    if isConfirmed then
      let text := nameDescedComment ctx
      sendToAllWebSocketConnections
        { st with
          dbMessages := st.dbMessages ++ [⟨text, now⟩],
          messages := st.messages ++ [⟨text, now⟩] }
        (.message text now)
    else st

/-- The state change of one `/api/send-text/callback` invocation: on
success the settlement subscription is registered; on any failure
the handler touches no state. -/
def stepCallback (st : ServerState) (q : RawQuery) (gw : Except Unit Invoice) : ServerState :=
  match (sendTextCallback q gw).pending with
  | some p => { st with pending := st.pending ++ [p] }
  | none => st

/-- The `/api/ws` connect handler (source lines 227-251): add the
socket to the set, then broadcast `NUM_USERS` with the new size to
every socket (the new one included). -/
def wsConnect (st : ServerState) (s : Nat) : ServerState :=
  let users := if s ∈ st.socketUsers then st.socketUsers else st.socketUsers ++ [s]
  sendToAllWebSocketConnections { st with socketUsers := users } (.numUsers users.length)

/-- The `close` handler registered on each socket (source lines
234-243): remove the socket from the set, then broadcast
`NUM_USERS` with the new size to every remaining socket. -/
def wsClose (st : ServerState) (s : Nat) : ServerState :=
  let users := st.socketUsers.erase s
  sendToAllWebSocketConnections { st with socketUsers := users } (.numUsers users.length)

/-- `GET /api/messages` (source lines 435-439): returns the
in-memory cache as-is. -/
def apiMessages (st : ServerState) : List IMessage :=
  st.messages

/-- Startup (source line 220): the cache is seeded with
`SELECT text, timestamp FROM message ORDER BY id ASC LIMIT 1000`,
i.e. the first (oldest) 1000 rows in id order; no sockets, no
subscriptions, nothing broadcast yet. -/
def bootState (rows : List IMessage) : ServerState :=
  ⟨rows.take 1000, rows, [], [], []⟩

/-! ### The served payment offer -/

def configUrl : String := "http://192.168.1.1:8080"

/-- `GET /api/send-text` (source lines 297-307). -/
structure PaymentOffer where
  tag : String
  callback : String
  maxSendable : Nat
  minSendable : Nat
  commentAllowed : Nat
deriving Repr

def sendTextOffer : PaymentOffer :=
  ⟨"payRequest", configUrl ++ "/api/send-text/callback", 10000, 10000, 144⟩

/-! ### The bech32 encoding (the `bech32` npm package consumed by
`GET /api/get-bech32`)

Translated from the package's `polymodStep`, `prefixChk`, `encode`,
`__decode`, `toWords`, `fromWords` and `convert` functions.  The
`while (bits >= outBits)` loop of `convert` is realised by
`drainBits` with fuel `bits`, which is an upper bound on its
iteration count. -/

def ALPHABET : List Char := "qpzry9x8gf2tvdw0s3jn54khce6mua7l".data

/-- `ALPHABET_MAP` of the package (character to 5-bit value). -/
def alphabetIndex (c : Char) : Option Nat := ALPHABET.findIdx? (· == c)

def polymodStep (pre : Nat) : Nat :=
  let b := pre >>> 25
  ((pre &&& 0x1ffffff) <<< 5)
    ^^^ (if (b >>> 0) &&& 1 = 1 then 0x3b6a57b2 else 0)
    ^^^ (if (b >>> 1) &&& 1 = 1 then 0x26508e6d else 0)
    ^^^ (if (b >>> 2) &&& 1 = 1 then 0x1ea119fa else 0)
    ^^^ (if (b >>> 3) &&& 1 = 1 then 0x3d4233dd else 0)
    ^^^ (if (b >>> 4) &&& 1 = 1 then 0x2a1462b3 else 0)

/-- The package's checksum seeding over the human-readable part. -/
def hrpChk (hrp : String) : Except String Nat :=
  if hrp.data.any (fun c => c.toNat < 33 || 126 < c.toNat) then
    .error ("Invalid prefix (" ++ hrp ++ ")")
  else
    let s1 := hrp.data.foldl (fun chk c => polymodStep chk ^^^ (c.toNat >>> 5)) 1
    let s2 := polymodStep s1
    .ok (hrp.data.foldl (fun chk c => polymodStep chk ^^^ (c.toNat &&& 0x1f)) s2)

/-- One step of `encode`'s word loop: fold the word into the
checksum and append its data character; a word that does not fit in
5 bits throws. -/
def encodeWordsStep (acc : Except String (Nat × List Char)) (x : Nat) :
    Except String (Nat × List Char) :=
  match acc with
  | .error e => .error e
  | .ok (chk, cs) =>
    if x >>> 5 ≠ 0 then .error "Non 5-bit word"
    else .ok (polymodStep chk ^^^ x, cs ++ [ALPHABET.getD x 'q'])

/-- `bech32.encode(prefix, words, LIMIT)`. -/
def bech32Encode (hrp : String) (words : List Nat) (limit : Nat) : Except String String :=
  if limit < hrp.data.length + 7 + words.length then .error "Exceeds length limit"
  else
    let hrp := String.mk (hrp.data.map Char.toLower)
    match hrpChk hrp with
    | .error e => .error e
    | .ok chk0 =>
      match words.foldl encodeWordsStep (.ok (chk0, [])) with
      | .error e => .error e
      | .ok (chk1, dataChars) =>
        let chk2 := (List.range 6).foldl (fun c _ => polymodStep c) chk1
        let chk3 := chk2 ^^^ 1
        let checksum :=
          (List.range 6).map fun i => ALPHABET.getD ((chk3 >>> ((5 - i) * 5)) &&& 0x1f) 'q'
        .ok (hrp ++ "1" ++ String.mk dataChars ++ String.mk checksum)

/-- `str.lastIndexOf("1")`. -/
def lastIndexOfOne (cs : List Char) : Option Nat :=
  match cs.reverse.findIdx? (· == '1') with
  | none => none
  | some j => some (cs.length - 1 - j)

/-- The data-character loop of `__decode`: map every character to
its 5-bit value, failing on the first unknown character. -/
def wordValues : List Char → Except String (List Nat)
  | [] => .ok []
  | c :: rest =>
    match alphabetIndex c with
    | none => .error ("Unknown character " ++ String.mk [c])
    | some v =>
      match wordValues rest with
      | .error e => .error e
      | .ok vs => .ok (v :: vs)

/-- `bech32.decode(str, LIMIT)` (the package's `__decode`): length
and case checks, split at the last separator, checksum
verification; returns the human-readable part and the data words
(all values except the final 6 checksum characters). -/
def bech32Decode (str : String) (limit : Nat) : Except String (String × List Nat) :=
  if str.data.length < 8 then .error (str ++ " too short")
  else if limit < str.data.length then .error "Exceeds length limit"
  else
    let lowered := String.mk (str.data.map Char.toLower)
    let uppered := String.mk (str.data.map Char.toUpper)
    if str ≠ lowered ∧ str ≠ uppered then .error ("Mixed-case string " ++ str)
    else
      let s := lowered
      match lastIndexOfOne s.data with
      | none => .error ("No separator character for " ++ s)
      | some 0 => .error ("Missing prefix for " ++ s)
      | some split =>
        let hrp := String.mk (s.data.take split)
        let wordChars := s.data.drop (split + 1)
        if wordChars.length < 6 then .error "Data too short"
        else
          match hrpChk hrp with
          | .error e => .error e
          | .ok chk0 =>
            match wordValues wordChars with
            | .error e => .error e
            | .ok vals =>
              let chk := vals.foldl (fun chk v => polymodStep chk ^^^ v) chk0
              if chk ≠ 1 then .error ("Invalid checksum for " ++ s)
              else .ok (hrp, vals.take (vals.length - 6))

/-- The `while (bits >= outBits)` emission loop of `convert`,
run with fuel (an upper bound on its iterations). -/
def drainBits (outB value : Nat) : Nat → Nat → List Nat × Nat
  | 0, bits => ([], bits)
  | fuel + 1, bits =>
    if outB ≤ bits then
      let bits2 := bits - outB
      let w := (value >>> bits2) &&& ((1 <<< outB) - 1)
      let r := drainBits outB value fuel bits2
      (w :: r.1, r.2)
    else ([], bits)

/-- The main loop of `convert`: shift each datum in, emit full
output groups; returns the emitted groups and the final
accumulator/bit count. -/
def convertGo (inB outB : Nat) : List Nat → Nat → Nat → List Nat × Nat × Nat
  | [], value, bits => ([], value, bits)
  | d :: rest, value, bits =>
    let value2 := (value <<< inB) ||| d
    let bits2 := bits + inB
    let drained := drainBits outB value2 bits2 bits2
    let tail := convertGo inB outB rest value2 drained.2
    (drained.1 ++ tail.1, tail.2.1, tail.2.2)

/-- `convert(data, inBits, outBits, pad)` of the package. -/
def convertBits (inB outB : Nat) (pad : Bool) (data : List Nat) : Except String (List Nat) :=
  let r := convertGo inB outB data 0 0
  let value := r.2.1
  let bits := r.2.2
  let maxV := (1 <<< outB) - 1
  if pad then
    if 0 < bits then .ok (r.1 ++ [(value <<< (outB - bits)) &&& maxV]) else .ok r.1
  else if inB ≤ bits then .error "Excess padding"
  else if (value <<< (outB - bits)) &&& maxV ≠ 0 then .error "Non-zero padding"
  else .ok r.1

/-- `bech32.toWords` (8-bit bytes to 5-bit words, padded; this
direction never fails on byte input). -/
def toWords (bytes : List Nat) : List Nat :=
  match convertBits 8 5 true bytes with
  | .ok ws => ws
  | .error _ => []

/-- `bech32.fromWords` (5-bit words back to 8-bit bytes). -/
def fromWords (words : List Nat) : Except String (List Nat) :=
  convertBits 5 8 false words

/-- The offer-fetch URL the program encodes:
`${config.url}/api/send-text` (source line 224). -/
def offerFetchUrl : String := configUrl ++ "/api/send-text"

/-- `new Buffer(string)` over an ASCII string: its byte values. -/
def strBytes (s : String) : List Nat := s.data.map Char.toNat

def bytesStr (l : List Nat) : String := String.mk (l.map Char.ofNat)

/-- `GET /api/get-bech32` (source lines 223-225). -/
def getBech32 : Except String String :=
  bech32Encode "lnurl" (toWords (strBytes offerFetchUrl)) 1024

/-- Decoding pipeline applied to the served encoded address:
bech32-decode it and convert the data words back to the byte
string. -/
def decodedOffer : Except String (String × String) := do
  let enc ← getBech32
  let d ← bech32Decode enc 1024
  let bytes ← fromWords d.2
  pure (d.1, bytesStr bytes)

/-! ### Helper lemmas about the callback handler -/

/-- The amounts the handler's first check rejects
(`!amount || amount < 10 || Number.isNaN(amount)`): absent (or
empty-string) parameter, `NaN`, and parsed values below 10
(zero included). -/
def amountRejected : Option (Option Int) → Bool
  | none => true
  | some none => true
  | some (some a) => decide (a < 10)

theorem sendTextCallback_ok_or_fail (q : RawQuery) (gw : Except Unit Invoice) :
    (∃ pr, (sendTextCallback q gw).result = .ok pr) ∨ (sendTextCallback q gw).pending = none := by
  unfold sendTextCallback
  repeat' split
  all_goals first
    | exact Or.inr rfl
    | exact Or.inl ⟨_, rfl⟩

theorem sendTextCallback_gwCall_shape (q : RawQuery) (gw : Except Unit Invoice) (req : CreateReq)
    (h : (sendTextCallback q gw).gwCall = some req) :
    ∃ a : ℤ, req = ⟨a, (a : ℚ) / 1000⟩ ∧ 10 ≤ a := by
  unfold sendTextCallback at h
  repeat' split at h
  all_goals try (simp only [Option.some.injEq] at h)
  all_goals first
    | exact absurd h (by simp)
    | exact ⟨_, h.symm, by omega⟩

theorem sendTextCallback_pending_shape (q : RawQuery) (gw : Except Unit Invoice)
    (i : Nat) (ctx : Ctx) (h : (sendTextCallback q gw).pending = some (i, ctx)) :
    ctx.comment ≠ "" ∧ ctx.comment.length ≤ 144 := by
  unfold sendTextCallback at h
  repeat' split at h
  all_goals try simp_all
  obtain ⟨-, rfl⟩ := h
  simp_all

theorem amount_rejected_400 (q : RawQuery) (gw : Except Unit Invoice) (p : ILNUrlPayParams)
    (hp : parseSendTextCallbackQueryParams q = .ok p) (ha : amountRejected p.amount = true) :
    sendTextCallback q gw = ⟨.badRequest amountErrorMsg, none, none⟩ := by
  rcases hA : p.amount with - | (- | a)
  · simp [sendTextCallback, hp, hA]
  · simp [sendTextCallback, hp, hA]
  · have ha' : a < 10 := by simpa [amountRejected, hA] using ha
    simp [sendTextCallback, hp, hA, ha']

theorem comment_missing_400 (q : RawQuery) (gw : Except Unit Invoice) (p : ILNUrlPayParams)
    (hp : parseSendTextCallbackQueryParams q = .ok p) (ha : amountRejected p.amount = false)
    (hc : p.comment = none ∨ p.comment = some "") :
    sendTextCallback q gw = ⟨.badRequest commentMissingMsg, none, none⟩ := by
  rcases hA : p.amount with - | (- | a)
  · simp [amountRejected, hA] at ha
  · simp [amountRejected, hA] at ha
  · have ha' : ¬ a < 10 := by simpa [amountRejected, hA] using ha
    rcases hc with hc | hc <;> simp [sendTextCallback, hp, hA, hc, ha']

theorem comment_too_long_400 (q : RawQuery) (gw : Except Unit Invoice) (p : ILNUrlPayParams)
    (c : String)
    (hp : parseSendTextCallbackQueryParams q = .ok p) (ha : amountRejected p.amount = false)
    (hc : p.comment = some c) (hne : c ≠ "") (hlen : 144 < c.length) :
    sendTextCallback q gw = ⟨.badRequest commentTooLongMsg, none, none⟩ := by
  rcases hA : p.amount with - | (- | a)
  · simp [amountRejected, hA] at ha
  · simp [amountRejected, hA] at ha
  · have ha' : ¬ a < 10 := by simpa [amountRejected, hA] using ha
    simp [sendTextCallback, hp, hA, hc, ha', hne, hlen]

theorem payerdata_malformed_throws (q : RawQuery) (gw : Except Unit Invoice)
    (h : q.payerdata = some .malformed) :
    sendTextCallback q gw = ⟨.thrown .parseParams, none, none⟩ := by
  simp [sendTextCallback, parseSendTextCallbackQueryParams, h]

theorem payerdata_json_no_parse_throw (q : RawQuery) (gw : Except Unit Invoice) (v : JsValue)
    (h : q.payerdata = some (.json v)) :
    (sendTextCallback q gw).result ≠ .thrown .parseParams := by
  simp only [sendTextCallback, parseSendTextCallbackQueryParams, h]
  repeat' split
  all_goals simp

theorem length_one_le_of_ne_empty (s : String) (h : s ≠ "") : 1 ≤ s.length := by
  cases s with
  | mk data =>
    cases data with
    | nil => simp at h
    | cons c cs => simp [String.length]

theorem tokens_int_iff_dvd (a : ℤ) :
    ((1000 : ℤ) ∣ a) ↔ ∃ n : ℤ, (a : ℚ) / 1000 = (n : ℚ) := by
  constructor
  · rintro ⟨k, rfl⟩
    exact ⟨k, by push_cast; ring⟩
  · rintro ⟨n, hn⟩
    rw [div_eq_iff (by norm_num : (1000 : ℚ) ≠ 0)] at hn
    have h : a = n * 1000 := by exact_mod_cast hn
    exact ⟨n, by omega⟩

theorem tokens_exact_div (a k : ℤ) (h : a = 1000 * k) : (a : ℚ) / 1000 = (k : ℚ) := by
  subst h
  push_cast
  ring

/-! ### Helper lemmas about the settlement and websocket handlers -/

theorem applyInvoiceUpdated_confirmed (st : ServerState) (i t : Nat) (ctx : Ctx)
    (h : st.pending.lookup i = some ctx) :
    applyInvoiceUpdated st i true t =
      { st with
        messages := st.messages ++ [⟨nameDescedComment ctx, t⟩],
        dbMessages := st.dbMessages ++ [⟨nameDescedComment ctx, t⟩],
        broadcasts := st.broadcasts ++ [⟨st.socketUsers, .message (nameDescedComment ctx) t⟩] } := by
  simp [applyInvoiceUpdated, h, sendToAllWebSocketConnections]

theorem applyInvoiceUpdated_pending (st : ServerState) (i : Nat) (c : Bool) (t : Nat) :
    (applyInvoiceUpdated st i c t).pending = st.pending := by
  unfold applyInvoiceUpdated
  repeat' split <;> simp [sendToAllWebSocketConnections]

theorem twoPending (st : ServerState) (id1 id2 t1 t2 : Nat) (ctx1 ctx2 : Ctx)
    (h1 : st.pending.lookup id1 = some ctx1) (h2 : st.pending.lookup id2 = some ctx2) :
    (applyInvoiceUpdated (applyInvoiceUpdated st id1 true t1) id2 true t2).messages
      = st.messages ++ [⟨nameDescedComment ctx1, t1⟩, ⟨nameDescedComment ctx2, t2⟩]
    ∧ (applyInvoiceUpdated (applyInvoiceUpdated st id1 true t1) id2 true t2).dbMessages
      = st.dbMessages ++ [⟨nameDescedComment ctx1, t1⟩, ⟨nameDescedComment ctx2, t2⟩]
    ∧ (applyInvoiceUpdated (applyInvoiceUpdated st id1 true t1) id2 true t2).broadcasts
      = st.broadcasts ++
        [⟨st.socketUsers, .message (nameDescedComment ctx1) t1⟩,
         ⟨st.socketUsers, .message (nameDescedComment ctx2) t2⟩] := by
  have e1 := applyInvoiceUpdated_confirmed st id1 t1 ctx1 h1
  have h2' : (applyInvoiceUpdated st id1 true t1).pending.lookup id2 = some ctx2 := by
    rw [e1]; exact h2
  have e2 := applyInvoiceUpdated_confirmed _ id2 t2 ctx2 h2'
  rw [e2, e1]
  simp

/-- The pending map after `m` validated callbacks all carrying the
same context, bound to invoice ids `m-1, ..., 1, 0`. -/
def mkPending (c : Ctx) : Nat → List (Nat × Ctx)
  | 0 => []
  | n + 1 => (n, c) :: mkPending c n

theorem lookup_mkPending (c : Ctx) : ∀ m i, i < m → (mkPending c m).lookup i = some c := by
  intro m
  induction m with
  | zero => intro i h; exact absurd h (Nat.not_lt_zero i)
  | succ m ih =>
    intro i h
    by_cases hi : i = m
    · simp [mkPending, List.lookup, hi]
    · have hlt : i < m := by omega
      have hb : (i == m) = false := by simp [hi]
      simp [mkPending, List.lookup, hb]
      exact ih i hlt

/-- Deliver one confirmed settlement event for each of the invoices
`0, ..., n-1` in turn (the event for invoice `k` arriving at time
`k`). -/
def settleRange (st : ServerState) : Nat → ServerState
  | 0 => st
  | n + 1 => applyInvoiceUpdated (settleRange st n) n true n

/-- The comments those `n` settlements append, in application
order. -/
def settledTexts (c : Ctx) : Nat → List IMessage
  | 0 => []
  | n + 1 => settledTexts c n ++ [⟨nameDescedComment c, n⟩]

theorem settleRange_pending (st : ServerState) : ∀ n, (settleRange st n).pending = st.pending := by
  intro n
  induction n with
  | zero => rfl
  | succ n ih => rw [settleRange, applyInvoiceUpdated_pending, ih]

theorem settleRange_messages (c : Ctx) (st : ServerState) (m : Nat)
    (hp : st.pending = mkPending c m) :
    ∀ n, n ≤ m → (settleRange st n).messages = st.messages ++ settledTexts c n := by
  intro n
  induction n with
  | zero => intro _; simp [settleRange, settledTexts]
  | succ n ih =>
    intro h
    have hlook : (settleRange st n).pending.lookup n = some c := by
      rw [settleRange_pending, hp]
      exact lookup_mkPending c m n (by omega)
    rw [settleRange, applyInvoiceUpdated_confirmed _ _ _ _ hlook]
    simp [settledTexts, ih (by omega)]

theorem settledTexts_length (c : Ctx) : ∀ n, (settledTexts c n).length = n := by
  intro n
  induction n with
  | zero => rfl
  | succ n ih => simp [settledTexts, ih]

/-! ### The claims -/

/-- A reachable state with one settlement subscription live for
invoice 0 (one validated callback with comment "hello", invoice
created, response sent). -/
def c1State : ServerState := ⟨[], [], [], [(0, ⟨"hello", none⟩)], []⟩

/-- **C1** — the claim says a bound callback context is applied to
storage and broadcast at most once even under duplicate "confirmed"
settlement notifications.  The code has no already-applied marker
and never tears the subscription down, so delivering a second
`invoice_updated` event with `is_confirmed` for the same invoice
inserts the comment into the message table a second time, appends
it to the feed cache a second time, and broadcasts it a second
time. -/
theorem c1_second_confirmation_applies_again :
    (applyInvoiceUpdated (applyInvoiceUpdated c1State 0 true 1) 0 true 2).messages
      = [⟨"hello", 1⟩, ⟨"hello", 2⟩]
    ∧ (applyInvoiceUpdated (applyInvoiceUpdated c1State 0 true 1) 0 true 2).dbMessages
      = [⟨"hello", 1⟩, ⟨"hello", 2⟩]
    ∧ (applyInvoiceUpdated (applyInvoiceUpdated c1State 0 true 1) 0 true 2).broadcasts
      = [⟨[], .message "hello" 1⟩, ⟨[], .message "hello" 2⟩] :=
  ⟨rfl, rfl, rfl⟩

/-- **C2 counterexample** — the claim says every amount outside the
offer's bounds `[minSendable, maxSendable] = [10000, 10000]` is
rejected with HTTP 400 and creates no invoice.  But the handler
only checks `amount < 10`: the callback with `amount=5000` (below
`minSendable`) passes validation, an invoice over 5000 msat is
created, and the payment request is returned. -/
theorem c2_out_of_bounds_amount_accepted :
    sendTextCallback ⟨some "5000", some "hi", none⟩ (.ok ⟨0, "pr0"⟩)
      = ⟨.ok "pr0", some ⟨5000, (5000 : ℚ) / 1000⟩, some (0, ⟨"hi", none⟩)⟩
    ∧ ¬ ((sendTextOffer.minSendable : ℤ) ≤ 5000) :=
  ⟨rfl, by decide⟩

/-- **C2 (amended)** — the callback rejects exactly the amounts that
are absent/empty, non-numeric (`NaN`) or below 10, with HTTP 400
and the amount reason, creating no invoice; and every invoice
actually handed to the payment rail has validated amount `≥ 10`
(the offer bounds are not enforced). -/
theorem c2_amount_validation :
    (∀ q gw p, parseSendTextCallbackQueryParams q = .ok p → amountRejected p.amount = true →
       sendTextCallback q gw = ⟨.badRequest amountErrorMsg, none, none⟩)
    ∧ (∀ q gw req, (sendTextCallback q gw).gwCall = some req →
       req.tokens = (req.amountMsat : ℚ) / 1000 ∧ 10 ≤ req.amountMsat) := by
  refine ⟨fun q gw p hp ha => amount_rejected_400 q gw p hp ha, fun q gw req h => ?_⟩
  obtain ⟨a, rfl, ha⟩ := sendTextCallback_gwCall_shape q gw req h
  exact ⟨rfl, ha⟩

/-- Witness for C2 (amended): `amount=abc` is rejected with the
amount reason and no invoice; the accepted `amount=10000` creates
an invoice with amount `≥ 10`. -/
theorem c2_amount_validation_witness :
    sendTextCallback ⟨some "abc", some "hi", none⟩ (.ok ⟨0, "pr0"⟩)
      = ⟨.badRequest amountErrorMsg, none, none⟩
    ∧ ((⟨10000, (10000 : ℚ) / 1000⟩ : CreateReq).tokens
        = ((⟨10000, (10000 : ℚ) / 1000⟩ : CreateReq).amountMsat : ℚ) / 1000
      ∧ 10 ≤ (⟨10000, (10000 : ℚ) / 1000⟩ : CreateReq).amountMsat) :=
  ⟨c2_amount_validation.1 ⟨some "abc", some "hi", none⟩ (.ok ⟨0, "pr0"⟩)
      ⟨some none, some "hi", none⟩ rfl rfl,
   c2_amount_validation.2 ⟨some "10000", some "hi", none⟩ (.ok ⟨0, "pr0"⟩)
      ⟨10000, (10000 : ℚ) / 1000⟩ rfl⟩

/-- **C3 counterexample** — the claim says every invocation with an
absent/empty comment gets HTTP 400 with a reason about the comment.
With `amount` absent and `comment` empty, the handler's amount
check fires first: the 400 reason is the amount message, which is
neither of the two comment messages. -/
theorem c3_comment_error_masked_by_amount :
    sendTextCallback ⟨none, some "", none⟩ (.ok ⟨0, "pr0"⟩)
      = ⟨.badRequest amountErrorMsg, none, none⟩
    ∧ amountErrorMsg ≠ commentMissingMsg
    ∧ amountErrorMsg ≠ commentTooLongMsg :=
  ⟨rfl, by decide, by decide⟩

/-- **C3 (amended)** — once the amount check passes, an absent or
empty comment is rejected with HTTP 400 "You must provide a
comment." and a comment longer than 144 characters with
"Comment cannot be larger than 144 letters.", in both cases
creating no invoice; and the validated source comment of every
registered settlement context has length in `[1, 144]`. -/
theorem c3_comment_validation :
    (∀ q gw p, parseSendTextCallbackQueryParams q = .ok p → amountRejected p.amount = false →
       (p.comment = none ∨ p.comment = some "") →
       sendTextCallback q gw = ⟨.badRequest commentMissingMsg, none, none⟩)
    ∧ (∀ q gw p c, parseSendTextCallbackQueryParams q = .ok p →
       amountRejected p.amount = false →
       p.comment = some c → c ≠ "" → 144 < c.length →
       sendTextCallback q gw = ⟨.badRequest commentTooLongMsg, none, none⟩)
    ∧ (∀ q gw i ctx, (sendTextCallback q gw).pending = some (i, ctx) →
       1 ≤ ctx.comment.length ∧ ctx.comment.length ≤ 144) := by
  refine ⟨fun q gw p hp ha hc => comment_missing_400 q gw p hp ha hc,
    fun q gw p c hp ha hc hne hlen => comment_too_long_400 q gw p c hp ha hc hne hlen,
    fun q gw i ctx h => ?_⟩
  obtain ⟨hne, hlen⟩ := sendTextCallback_pending_shape q gw i ctx h
  exact ⟨length_one_le_of_ne_empty ctx.comment hne, hlen⟩

/-- Witness for C3 (amended): a missing comment and an
over-length comment are each rejected; the registered context for
`comment=hi` has length in `[1, 144]`. -/
theorem c3_comment_validation_witness :
    sendTextCallback ⟨some "10000", none, none⟩ (.ok ⟨0, "pr0"⟩)
      = ⟨.badRequest commentMissingMsg, none, none⟩
    ∧ sendTextCallback ⟨some "10000", some (String.mk (List.replicate 145 'a')), none⟩
        (.ok ⟨0, "pr0"⟩)
      = ⟨.badRequest commentTooLongMsg, none, none⟩
    ∧ (1 ≤ (Ctx.mk "hi" none).comment.length ∧ (Ctx.mk "hi" none).comment.length ≤ 144) :=
  ⟨c3_comment_validation.1 ⟨some "10000", none, none⟩ (.ok ⟨0, "pr0"⟩)
      ⟨some (some 10000), none, none⟩ rfl rfl (Or.inl rfl),
   c3_comment_validation.2.1 ⟨some "10000", some (String.mk (List.replicate 145 'a')), none⟩
      (.ok ⟨0, "pr0"⟩) ⟨some (some 10000), some (String.mk (List.replicate 145 'a')), none⟩
      (String.mk (List.replicate 145 'a')) rfl rfl rfl (by decide) (by decide),
   c3_comment_validation.2.2 ⟨some "10000", some "hi", none⟩ (.ok ⟨0, "pr0"⟩) 0
      ⟨"hi", none⟩ rfl⟩

/-- A reachable state with 1001 settlement subscriptions live
(1001 validated callbacks, nothing settled yet, empty store). -/
def c4State : ServerState := ⟨[], [], [], mkPending ⟨"hello", none⟩ 1001, []⟩

/-- **C4 counterexample** — the claim says that with more than 1000
applied comments the feed returns only the most recent 1000.  After
1001 applied settlements from an empty store, `GET /api/messages`
returns all 1001 comments: the in-memory cache is appended to
without bound (the LIMIT 1000 exists only in the startup seed
query). -/
theorem c4_feed_exceeds_window :
    (apiMessages (settleRange c4State 1001)).length = 1001 ∧ (1001 : Nat) ≠ 1000 := by
  constructor
  · have h := settleRange_messages ⟨"hello", none⟩ c4State 1001 rfl 1001 (le_refl 1001)
    rw [apiMessages, h]
    rw [show c4State.messages = [] from rfl, List.nil_append, settledTexts_length]
  · decide

/-- **C4 (amended)** — the feed is the in-memory cache: seeded at
startup with the first (oldest) up to 1000 stored rows in id order,
then every applied settlement appends one comment in application
order with no bound, so after `n` applied settlements the feed
grew by exactly `n` comments, for every `n` (including
`n > 1000`). -/
theorem c4_feed_unbounded_append :
    (∀ rows, apiMessages (bootState rows) = rows.take 1000)
    ∧ (∀ c st m n, st.pending = mkPending c m → n ≤ m →
        apiMessages (settleRange st n) = apiMessages st ++ settledTexts c n)
    ∧ (∀ c n, (settledTexts c n).length = n) := by
  refine ⟨fun rows => rfl,
    fun c st m n hp hn => settleRange_messages c st m hp n hn,
    fun c n => settledTexts_length c n⟩

/-- Witness for C4 (amended): a one-row store seeds a one-element
feed; two applied settlements append exactly their two comments. -/
theorem c4_feed_unbounded_append_witness :
    apiMessages (bootState [⟨"a", 0⟩]) = [⟨"a", 0⟩]
    ∧ apiMessages (settleRange ⟨[], [], [], mkPending ⟨"hello", none⟩ 2, []⟩ 2)
        = apiMessages ⟨[], [], [], mkPending ⟨"hello", none⟩ 2, []⟩
          ++ settledTexts ⟨"hello", none⟩ 2
    ∧ (settledTexts ⟨"hello", none⟩ 2).length = 2 :=
  ⟨c4_feed_unbounded_append.1 [⟨"a", 0⟩],
   c4_feed_unbounded_append.2.1 ⟨"hello", none⟩ ⟨[], [], [], mkPending ⟨"hello", none⟩ 2, []⟩
      2 2 rfl (by decide),
   c4_feed_unbounded_append.2.2 ⟨"hello", none⟩ 2⟩

/-- **C5 counterexample** — the claim says a `payerdata` parameter
that does not parse as schema-conformant data yields HTTP 400 with
`status:"ERROR"` and no invoice.  But (a) a `payerdata` string on
which `JSON.parse` throws makes the handler throw
"Could not parse query params" — surfaced as a generic thrown
error, not as the 400 `status:"ERROR"` response (no invoice is
created); and (b) `payerdata` that parses as JSON is never checked
against the offer's schema: a non-conformant object is accepted and
an invoice IS created. -/
theorem c5_payerdata_not_schema_validated :
    sendTextCallback ⟨some "10000", some "hi", some .malformed⟩ (.ok ⟨0, "pr0"⟩)
      = ⟨.thrown .parseParams, none, none⟩
    ∧ sendTextCallback ⟨some "10000", some "hi", some (.json (.obj [("foo", .num 1)]))⟩
        (.ok ⟨0, "pr0"⟩)
      = ⟨.ok "pr0", some ⟨10000, (10000 : ℚ) / 1000⟩,
         some (0, ⟨"hi", some (.obj [("foo", .num 1)])⟩)⟩ :=
  ⟨rfl, rfl⟩

/-- **C5 (amended)** — a `payerdata` parameter on which `JSON.parse`
throws makes the handler rethrow before any validation (surfaced as
a thrown error, not as HTTP 400 `status:"ERROR"`), and no invoice
is created; a `payerdata` parameter that parses as JSON is never
rejected for its content (no schema validation exists). -/
theorem c5_payerdata_parse_behaviour :
    (∀ q gw, q.payerdata = some .malformed →
       sendTextCallback q gw = ⟨.thrown .parseParams, none, none⟩)
    ∧ (∀ q gw v, q.payerdata = some (.json v) →
       (sendTextCallback q gw).result ≠ .thrown .parseParams) :=
  ⟨fun q gw h => payerdata_malformed_throws q gw h,
   fun q gw v h => payerdata_json_no_parse_throw q gw v h⟩

/-- Witness for C5 (amended) at concrete queries. -/
theorem c5_payerdata_parse_behaviour_witness :
    sendTextCallback ⟨none, none, some .malformed⟩ (.ok ⟨0, "pr0"⟩)
      = ⟨.thrown .parseParams, none, none⟩
    ∧ (sendTextCallback ⟨none, none, some (.json .null)⟩ (.ok ⟨0, "pr0"⟩)).result
        ≠ .thrown .parseParams :=
  ⟨c5_payerdata_parse_behaviour.1 ⟨none, none, some .malformed⟩ (.ok ⟨0, "pr0"⟩) rfl,
   c5_payerdata_parse_behaviour.2 ⟨none, none, some (.json .null)⟩ (.ok ⟨0, "pr0"⟩) .null rfl⟩

/-- **C6** — each settlement applies exactly the context bound to
its own invoice: with two live subscriptions for distinct invoices,
settling them in either order (the universal covers both orders)
appends and broadcasts exactly each invoice's own composed comment,
in settlement order; and the composed text is the validated comment
with the payer-supplied display name as a separator-joined front
part when one was supplied, the bare comment otherwise. -/
theorem c6_settlement_uses_own_context :
    (∀ st id1 id2 t1 t2 (ctx1 ctx2 : Ctx), id1 ≠ id2 →
       st.pending.lookup id1 = some ctx1 → st.pending.lookup id2 = some ctx2 →
       (applyInvoiceUpdated (applyInvoiceUpdated st id1 true t1) id2 true t2).messages
         = st.messages ++ [⟨nameDescedComment ctx1, t1⟩, ⟨nameDescedComment ctx2, t2⟩]
       ∧ (applyInvoiceUpdated (applyInvoiceUpdated st id1 true t1) id2 true t2).dbMessages
         = st.dbMessages ++ [⟨nameDescedComment ctx1, t1⟩, ⟨nameDescedComment ctx2, t2⟩]
       ∧ (applyInvoiceUpdated (applyInvoiceUpdated st id1 true t1) id2 true t2).broadcasts
         = st.broadcasts ++
           [⟨st.socketUsers, .message (nameDescedComment ctx1) t1⟩,
            ⟨st.socketUsers, .message (nameDescedComment ctx2) t2⟩])
    ∧ (∀ c n, n ≠ "" →
        nameDescedComment ⟨c, some (.obj [("name", .str n)])⟩ = n ++ ":  " ++ c)
    ∧ (∀ c, nameDescedComment ⟨c, none⟩ = c) := by
  refine ⟨fun st id1 id2 t1 t2 ctx1 ctx2 _ h1 h2 => twoPending st id1 id2 t1 t2 ctx1 ctx2 h1 h2,
    fun c n hn => ?_, fun c => rfl⟩
  simp [nameDescedComment, jsMember, truthy, List.lookup, jsToString, hn]

/-- A reachable state with two live subscriptions for distinct
invoices carrying distinct contexts. -/
def c6State : ServerState :=
  ⟨[], [], [], [(0, ⟨"one", none⟩), (1, ⟨"two", some (.obj [("name", .str "alice")])⟩)], []⟩

/-- Witness for C6: the two concrete pending invoices settle to
exactly their own comments, and the composition instances hold. -/
theorem c6_settlement_uses_own_context_witness :
    ((applyInvoiceUpdated (applyInvoiceUpdated c6State 1 true 7) 0 true 9).messages
       = c6State.messages ++
         [⟨nameDescedComment ⟨"two", some (.obj [("name", .str "alice")])⟩, 7⟩,
          ⟨nameDescedComment ⟨"one", none⟩, 9⟩]
     ∧ (applyInvoiceUpdated (applyInvoiceUpdated c6State 1 true 7) 0 true 9).dbMessages
       = c6State.dbMessages ++
         [⟨nameDescedComment ⟨"two", some (.obj [("name", .str "alice")])⟩, 7⟩,
          ⟨nameDescedComment ⟨"one", none⟩, 9⟩]
     ∧ (applyInvoiceUpdated (applyInvoiceUpdated c6State 1 true 7) 0 true 9).broadcasts
       = c6State.broadcasts ++
         [⟨c6State.socketUsers,
           .message (nameDescedComment ⟨"two", some (.obj [("name", .str "alice")])⟩) 7⟩,
          ⟨c6State.socketUsers, .message (nameDescedComment ⟨"one", none⟩) 9⟩])
    ∧ nameDescedComment ⟨"hi", some (.obj [("name", .str "alice")])⟩ = "alice" ++ ":  " ++ "hi"
    ∧ nameDescedComment ⟨"hi", none⟩ = "hi" :=
  ⟨c6_settlement_uses_own_context.1 c6State 1 0 7 9
      ⟨"two", some (.obj [("name", .str "alice")])⟩ ⟨"one", none⟩ (by decide) rfl rfl,
   c6_settlement_uses_own_context.2.1 "hi" "alice" (by decide),
   c6_settlement_uses_own_context.2.2 "hi"⟩

/-- **C7** — connecting a subscriber and then disconnecting it emits
exactly two broadcasts, both presence counts: one on connect with
the incremented count (delivered to the set including the new
subscriber), one on disconnect with the decremented count; any
third subscriber already in the set receives both, and the
subscriber set returns to its original value. -/
theorem c7_presence_connect_disconnect :
    ∀ st s t, s ∉ st.socketUsers → t ∈ st.socketUsers →
    (wsClose (wsConnect st s) s).broadcasts
      = st.broadcasts ++
        [⟨st.socketUsers ++ [s], .numUsers (st.socketUsers.length + 1)⟩,
         ⟨st.socketUsers, .numUsers st.socketUsers.length⟩]
    ∧ t ∈ st.socketUsers ++ [s] ∧ t ∈ st.socketUsers
    ∧ (wsClose (wsConnect st s) s).socketUsers = st.socketUsers := by
  intro st s t hs ht
  have herase : (st.socketUsers ++ [s]).erase s = st.socketUsers := by
    rw [List.erase_append_right _ hs]
    simp
  simp [wsConnect, wsClose, sendToAllWebSocketConnections, if_neg hs, herase, ht]

/-- A reachable state with one connected subscriber (socket 3). -/
def c7State : ServerState := ⟨[], [], [3], [], []⟩

/-- Witness for C7: socket 7 connects and disconnects while socket 3
stays connected; it observes the two presence broadcasts with
counts 2 then 1. -/
theorem c7_presence_connect_disconnect_witness :
    (wsClose (wsConnect c7State 7) 7).broadcasts
      = c7State.broadcasts ++
        [⟨c7State.socketUsers ++ [7], .numUsers (c7State.socketUsers.length + 1)⟩,
         ⟨c7State.socketUsers, .numUsers c7State.socketUsers.length⟩]
    ∧ 3 ∈ c7State.socketUsers ++ [7] ∧ 3 ∈ c7State.socketUsers
    ∧ (wsClose (wsConnect c7State 7) 7).socketUsers = c7State.socketUsers :=
  c7_presence_connect_disconnect c7State 7 3 (by decide) (by decide)

/-- **C8** — when the callback fails (any 400 validation response,
the query-param parse rethrow, or `createInvoice` rejecting /
`UpstreamUnavailable`), the failure is the synchronous outcome
handed to the HTTP caller and the server state is untouched: the
comment store, the feed cache, the subscriber set and the
subscription map are unchanged and nothing is broadcast. -/
theorem c8_error_no_mutation :
    ∀ (st : ServerState) q gw,
    ((∃ r, (sendTextCallback q gw).result = .badRequest r)
      ∨ (∃ k, (sendTextCallback q gw).result = .thrown k)) →
    stepCallback st q gw = st := by
  intro st q gw h
  rcases sendTextCallback_ok_or_fail q gw with ⟨pr, hok⟩ | hnone
  · rcases h with ⟨r, hr⟩ | ⟨k, hk⟩ <;> simp_all
  · unfold stepCallback
    rw [hnone]

/-- Witness for C8: a callback with no parameters fails with the 400
amount response and leaves a (here: empty) server state exactly as
it was. -/
theorem c8_error_no_mutation_witness :
    (sendTextCallback ⟨none, none, none⟩ (.ok ⟨0, "pr0"⟩)).result
      = .badRequest amountErrorMsg
    ∧ stepCallback ⟨[], [], [], [], []⟩ ⟨none, none, none⟩ (.ok ⟨0, "pr0"⟩)
      = ⟨[], [], [], [], []⟩ :=
  ⟨rfl, c8_error_no_mutation ⟨[], [], [], [], []⟩ ⟨none, none, none⟩ (.ok ⟨0, "pr0"⟩)
      (Or.inl ⟨amountErrorMsg, rfl⟩)⟩

/-- **C9** — round-trip: bech32-decoding the encoded address served
by `GET /api/get-bech32` recovers the human-readable part "lnurl"
and exactly the offer-fetch URL string that was encoded. -/
theorem c9_bech32_round_trip : decodedOffer = .ok ("lnurl", offerFetchUrl) := rfl

/-- **C10** — every invoice handed to the payment rail is created
for `tokens = amount / 1000` (the query amount in millisatoshi,
divided exactly): when the accepted amount is a multiple of 1000
the token value is the integer `amount / 1000`, and when it is not,
the token value is not an integer. -/
theorem c10_tokens_msat_to_sat :
    ∀ q gw req, (sendTextCallback q gw).gwCall = some req →
    req.tokens = (req.amountMsat : ℚ) / 1000
    ∧ ((1000 : ℤ) ∣ req.amountMsat ↔ ∃ n : ℤ, req.tokens = (n : ℚ))
    ∧ (∀ k : ℤ, req.amountMsat = 1000 * k → req.tokens = (k : ℚ)) := by
  intro q gw req h
  obtain ⟨a, rfl, -⟩ := sendTextCallback_gwCall_shape q gw req h
  exact ⟨rfl, tokens_int_iff_dvd a, fun k hk => tokens_exact_div a k hk⟩

/-- Witness for C10: the accepted `amount=10000` yields an invoice
request whose token value is the integer 10. -/
theorem c10_tokens_msat_to_sat_witness :
    (sendTextCallback ⟨some "10000", some "hi", none⟩ (.ok ⟨0, "pr0"⟩)).gwCall
      = some ⟨10000, (10000 : ℚ) / 1000⟩
    ∧ (⟨10000, (10000 : ℚ) / 1000⟩ : CreateReq).tokens = ((10 : ℤ) : ℚ) :=
  ⟨rfl,
   (c10_tokens_msat_to_sat ⟨some "10000", some "hi", none⟩ (.ok ⟨0, "pr0"⟩)
      ⟨10000, (10000 : ℚ) / 1000⟩ rfl).2.2 10 (by decide)⟩

end LnurlPayChat
